import Mathlib

/-!
Shallow embedding of the guide script
`guides/keras_cv/classification_with_keras_cv.py` and proofs of the
claims about it.  The script is pure glue over external libraries
(KerasCV, TensorFlow, tensorflow-datasets); the external layer and model
calls are therefore embedded as a free term algebra over tensors, with a
seed argument making explicit which layers consume randomness (per the
documented library behaviour: `Resizing` is deterministic, the
`RandomFlip` / `RandAugment` / `CutMix` / `MixUp` layers are random).
-/

namespace KerasCVGuide

/-- Symbolic tensors: a free term algebra over the library operations the
script applies.  Each random layer application records the RNG seed it
consumed; the deterministic `Resizing` application records none. -/
inductive Tensor : Type
  | img : Nat → Tensor
  | castF32 : Tensor → Tensor
  | resized : Nat → Nat → Bool → Tensor → Tensor
  | oneHot : Nat → Nat → Tensor
  | flipped : Nat → Tensor → Tensor
  | randAugmented : Nat → Nat → Nat → Tensor → Tensor
  | cutMixed : Nat → Tensor → Tensor
  | mixedUp : Nat → Tensor → Tensor
  | customApplied : Nat → Nat → Tensor → Tensor
deriving DecidableEq

/-- The KerasCV layers the script instantiates, plus a `custom`
constructor standing for augmentation logic a script could define itself
(the guide never uses it). -/
inductive Layer : Type
  | Resizing : Nat → Nat → Bool → Layer
  | RandomFlip : Layer
  | RandAugment : Nat → Nat → Layer
  | CutMix : Layer
  | MixUp : Layer
  | custom : Nat → Layer
deriving DecidableEq

/-- A layer is prebuilt when it comes from the library rather than from
script-defined augmentation logic. -/
def Layer.prebuilt : Layer → Bool
  | .custom _ => false
  | _ => true

/-- Applying a layer to a tensor, given the RNG seed available at the
call.  `Resizing` is deterministic (with `crop_to_aspect_ratio=True` it
center-crops and resizes), so its result does not mention the seed; the
four augmentation layers are random and record the seed. -/
def applyLayer : Layer → Nat → Tensor → Tensor
  | .Resizing h w c, _, t => .resized h w c t
  | .RandomFlip, s, t => .flipped s t
  | .RandAugment lo hi, s, t => .randAugmented lo hi s t
  | .CutMix, s, t => .cutMixed s t
  | .MixUp, s, t => .mixedUp s t
  | .custom i, s, t => .customApplied i s t

/-- Sequential application of a list of layers (`keras.Sequential`). -/
def applySeq (ls : List Layer) (s : Nat) (t : Tensor) : Tensor :=
  ls.foldl (fun acc l => applyLayer l s acc) t

/-- `num_classes = dataset_info.features["label"].num_classes` for the
`cats_vs_dogs` dataset, which has the two classes cat and dog. -/
def num_classes : Nat := 2

/-- `random_crop = keras_cv.layers.Resizing(224, 224, crop_to_aspect_ratio=True)`. -/
def random_crop : Layer := .Resizing 224 224 true

/-- `def package_dict(image, label)` from the script: cast the image to
float32, apply the `random_crop` resizing layer, one-hot encode the
label, and return the dict `{"images": image, "labels": label}`.  The
seed argument is the RNG state available when the layer is applied. -/
def package_dict (seed : Nat) (image : Tensor) (label : Nat) :
    List (String × Tensor) :=
  let image := Tensor.castF32 image
  let image := applyLayer random_crop seed image
  let labelT := Tensor.oneHot label num_classes
  [("images", image), ("labels", labelT)]

/-- `augmenter = keras.Sequential(layers=[RandomFlip(), RandAugment(value_range=(0, 255)), CutMix(), MixUp()])`. -/
def augmenter : List Layer :=
  [Layer.RandomFlip, Layer.RandAugment 0 255, Layer.CutMix, Layer.MixUp]

/-- Claim C1: for every input image tensor and integer label,
`package_dict` returns a dict with exactly the keys `images` and
`labels`, where `images` is the input cast to float32 and resized with
the 224x224 crop-to-aspect-ratio layer, and `labels` is the one-hot
encoding of the label over `num_classes` classes. -/
theorem claim_C1 (seed : Nat) (image : Tensor) (label : Nat) :
    (package_dict seed image label).map Prod.fst = ["images", "labels"] ∧
    (package_dict seed image label).lookup "images" =
      some (Tensor.resized 224 224 true (Tensor.castF32 image)) ∧
    (package_dict seed image label).lookup "labels" =
      some (Tensor.oneHot label num_classes) :=
  ⟨rfl, rfl, rfl⟩

/-- Claim C2: the augmentation pipeline is a fixed sequential composition
of exactly four prebuilt layers in the order `RandomFlip`,
`RandAugment` with value range `(0, 255)`, `CutMix`, `MixUp`; every
layer is prebuilt (the script adds no augmentation logic of its own),
and sequential application applies them in exactly that order. -/
theorem claim_C2 :
    augmenter =
      [Layer.RandomFlip, Layer.RandAugment 0 255, Layer.CutMix, Layer.MixUp] ∧
    augmenter.length = 4 ∧
    (∀ l ∈ augmenter, l.prebuilt = true) ∧
    ∀ (s : Nat) (t : Tensor),
      applySeq augmenter s t =
        Tensor.mixedUp s
          (Tensor.cutMixed s
            (Tensor.randAugmented 0 255 s (Tensor.flipped s t))) :=
  ⟨rfl, rfl, by decide, fun _ _ => rfl⟩

/-- Claim C10: despite the variable name `random_crop`, `package_dict`
is deterministic: the `Resizing` layer with `crop_to_aspect_ratio=True`
ignores the RNG seed, and the cast and one-hot encoding are pure, so two
applications of `package_dict` (with whatever RNG states) on the same
image and label yield identical outputs. -/
theorem claim_C10 (s₁ s₂ : Nat) (image : Tensor) (label : Nat) :
    package_dict s₁ image label = package_dict s₂ image label :=
  rfl

/-! ### The top-level script as a statement trace

Each top-level Python statement of the guide is translated to one
constructor application, in source order.  Fields record only what the
claims inspect: which variable a `predict`, `compile` or `fit` call is
invoked on, the `num_parallel_calls` argument of each `map` call, and
the argument of `prefetch`. -/

/-- The two model variables the script calls methods on. -/
inductive Receiver : Type
  | classifier
  | model
deriving DecidableEq

/-- The `num_parallel_calls` / `prefetch` configuration value a dataset
call passes to the framework. -/
inductive Parallelism : Type
  | autotune
  | defaultSeq
deriving DecidableEq

/-- One straight-line Python statement of the guide, in source order.
`threadCreate` and `lockAcquire` stand for concurrency primitives a
script could use; the guide never does. -/
inductive SimpleStmt : Type
  | importLib : String → SimpleStmt
  | buildClassifier : SimpleStmt
  | getFileStmt : SimpleStmt
  | loadImgStmt : SimpleStmt
  | exprImage : SimpleStmt
  | npArrayStmt : SimpleStmt
  | predictStmt : Receiver → Nat → SimpleStmt
  | argsortStmt : SimpleStmt
  | dictAssign : List Nat → SimpleStmt
  | lookupComp : SimpleStmt
  | printStmt : SimpleStmt
  | constAssign : SimpleStmt
  | disableProgressBar : SimpleStmt
  | tfdsLoadStmt : SimpleStmt
  | stepsPerEpochAssign : SimpleStmt
  | trainSplitAssign : SimpleStmt
  | buildResizingLayer : SimpleStmt
  | defFun : String → SimpleStmt
  | shuffleMapAssign : Parallelism → SimpleStmt
  | batchAssign : SimpleStmt
  | takeNextAssign : SimpleStmt
  | plotGallery : SimpleStmt
  | buildAugmenterStmt : SimpleStmt
  | mapAssign : String → Parallelism → SimpleStmt
  | buildBackboneStmt : SimpleStmt
  | buildModelStmt : SimpleStmt
  | compileStmt : Receiver → SimpleStmt
  | mapDiscard : String → Parallelism → SimpleStmt
  | prefetchAssign : Parallelism → SimpleStmt
  | fitStmt : Receiver → Parallelism → SimpleStmt
  | argmaxPrintStmt : SimpleStmt
  | threadCreate : SimpleStmt
  | lockAcquire : SimpleStmt
deriving DecidableEq

/-- A top-level statement: either a straight-line statement or a
Python `try`/`except` block (which the guide never contains). -/
inductive Stmt : Type
  | simple : SimpleStmt → Stmt
  | tryExcept : List SimpleStmt → List SimpleStmt → Stmt
deriving DecidableEq

/-- Whether a statement is straight-line (not a `try`/`except`). -/
def Stmt.isSimple : Stmt → Bool
  | .simple _ => true
  | .tryExcept _ _ => false

open SimpleStmt in
/-- The guide script, statement by statement in source order.  The six
imports appear twice because the script repeats the import block.  The
first `DenseNet121` call builds the pretrained `classifier`; the second
builds the `backbone` of the fine-tuned model, recorded as
`buildBackboneStmt`.  `mapDiscard` is the `train_dataset.map(unpackage_data, ...)`
statement whose result is not assigned, and the `fitStmt` field records
the inline `map` in the `model.fit` argument. -/
def scriptStmts : List Stmt :=
  [ .simple (importLib "json"), .simple (importLib "keras_cv"),
    .simple (importLib "tensorflow"),
    .simple (importLib "tensorflow_datasets"),
    .simple (importLib "keras"), .simple (importLib "numpy"),
    .simple (importLib "json"), .simple (importLib "keras_cv"),
    .simple (importLib "tensorflow"),
    .simple (importLib "tensorflow_datasets"),
    .simple (importLib "keras"), .simple (importLib "numpy"),
    .simple buildClassifier,
    .simple getFileStmt,
    .simple loadImgStmt,
    .simple exprImage,
    .simple npArrayStmt,
    .simple (predictStmt .classifier 1),
    .simple argsortStmt,
    .simple (dictAssign [281, 885]),
    .simple lookupComp,
    .simple printStmt,
    .simple constAssign,
    .simple constAssign,
    .simple disableProgressBar,
    .simple tfdsLoadStmt,
    .simple stepsPerEpochAssign,
    .simple trainSplitAssign,
    .simple constAssign,
    .simple constAssign,
    .simple buildResizingLayer,
    .simple (defFun "package_dict"),
    .simple (shuffleMapAssign .autotune),
    .simple batchAssign,
    .simple takeNextAssign,
    .simple plotGallery,
    .simple buildAugmenterStmt,
    .simple (mapAssign "augmenter" .autotune),
    .simple takeNextAssign,
    .simple plotGallery,
    .simple buildBackboneStmt,
    .simple buildModelStmt,
    .simple (compileStmt .model),
    .simple (defFun "unpackage_data"),
    .simple (mapDiscard "unpackage_data" .autotune),
    .simple (prefetchAssign .autotune),
    .simple (fitStmt .model .autotune),
    .simple (predictStmt .model 1),
    .simple (dictAssign [0, 1]),
    .simple argmaxPrintStmt ]

/-! ### Claim C3: the big-step order of the script -/

/-- The phases the specification describes. -/
inductive BigStep : Type
  | loadPretrained
  | runPredict
  | loadDataset
  | buildAugPipeline
  | buildAndCompile
  | fitModel
deriving DecidableEq

/-- Classify a statement into the phase it belongs to, if any.
Building the backbone, assembling the sequential model and compiling it
together form the build-and-compile phase; statements that belong to no
listed phase (file fetches, plotting, dataset transformations,
assignments) are unclassified. -/
def bigStep : Stmt → Option BigStep
  | .simple .buildClassifier => some .loadPretrained
  | .simple (.predictStmt _ _) => some .runPredict
  | .simple .tfdsLoadStmt => some .loadDataset
  | .simple .buildAugmenterStmt => some .buildAugPipeline
  | .simple .buildBackboneStmt => some .buildAndCompile
  | .simple .buildModelStmt => some .buildAndCompile
  | .simple (.compileStmt _) => some .buildAndCompile
  | .simple (.fitStmt _ _) => some .fitModel
  | _ => none

/-- Collapse adjacent duplicates, so that a phase spanning several
consecutive statements counts once. -/
def collapseAdj : List BigStep → List BigStep
  | [] => []
  | [a] => [a]
  | a :: b :: rest =>
      if a = b then collapseAdj (b :: rest) else a :: collapseAdj (b :: rest)

/-- Claim C3: the phase-classified library calls of the script occur in
exactly the order load pretrained model, predict, load dataset, build
augmentation pipeline, build and compile (three consecutive statements),
fit, predict; collapsing consecutive repetitions of a phase yields
exactly the seven-step sequence of the specification, so no phase occurs
out of order and none recurs after the next phase has begun. -/
theorem claim_C3 :
    scriptStmts.filterMap bigStep =
      [BigStep.loadPretrained, BigStep.runPredict, BigStep.loadDataset,
       BigStep.buildAugPipeline, BigStep.buildAndCompile,
       BigStep.buildAndCompile, BigStep.buildAndCompile,
       BigStep.fitModel, BigStep.runPredict] ∧
    collapseAdj (scriptStmts.filterMap bigStep) =
      [BigStep.loadPretrained, BigStep.runPredict, BigStep.loadDataset,
       BigStep.buildAugPipeline, BigStep.buildAndCompile,
       BigStep.fitModel, BigStep.runPredict] := by
  constructor <;> rfl

/-! ### Claim C4: compile, fit, predict on the fine-tuned model -/

/-- The method calls on the fine-tuned model the claim counts. -/
inductive MCall : Type
  | mCompile
  | mFit
  | mPredict
deriving DecidableEq

/-- The compile/fit/predict calls whose receiver is the fine-tuned
`model` variable (the pretrained `classifier` is a different
receiver). -/
def modelCalls (l : List Stmt) : List MCall :=
  l.filterMap fun s =>
    match s with
    | .simple (.compileStmt .model) => some .mCompile
    | .simple (.fitStmt .model _) => some .mFit
    | .simple (.predictStmt .model _) => some .mPredict
    | _ => none

/-- Claim C4: on the fine-tuned model the script calls compile exactly
once, then fit exactly once, then predict exactly once, in that order;
in particular fit is never called again after predict. -/
theorem claim_C4 :
    modelCalls scriptStmts = [MCall.mCompile, MCall.mFit, MCall.mPredict] :=
  rfl

/-! ### Claim C7: no concurrency of its own -/

/-- The `num_parallel_calls` values of every `map` call a statement
makes (including the inline `map` in the `fit` argument). -/
def mapPars : Stmt → List Parallelism
  | .simple (.shuffleMapAssign p) => [p]
  | .simple (.mapAssign _ p) => [p]
  | .simple (.mapDiscard _ p) => [p]
  | .simple (.fitStmt _ p) => [p]
  | _ => []

/-- The argument of every `prefetch` call a statement makes. -/
def prefetchPars : Stmt → List Parallelism
  | .simple (.prefetchAssign p) => [p]
  | _ => []

/-- Whether a statement uses a concurrency primitive of its own. -/
def usesConcurrencyPrimitive : Stmt → Bool
  | .simple .threadCreate => true
  | .simple .lockAcquire => true
  | _ => false

/-- Claim C7: the script creates no threads or locks; its four `map`
calls all pass `num_parallel_calls=tf.data.AUTOTUNE` and its one
`prefetch` call passes `tf.data.AUTOTUNE`, so every parallel behaviour
is delegated to the framework through configuration values only. -/
theorem claim_C7 :
    (scriptStmts.all fun s => !usesConcurrencyPrimitive s) = true ∧
    scriptStmts.flatMap mapPars =
      [Parallelism.autotune, Parallelism.autotune,
       Parallelism.autotune, Parallelism.autotune] ∧
    scriptStmts.flatMap prefetchPars = [Parallelism.autotune] := by
  refine ⟨by decide, rfl, rfl⟩

/-! ### Claim C5: failures propagate unchanged

Execution is modelled against an oracle assigning each statement
position the outcome of its library call: success, or an exception.  A
`try`/`except` block would catch an exception from its body and run its
handler; since the script contains no such block, the first exception
any call raises is the result of the whole script, unchanged. -/

/-- The failure modes the specification names for library calls. -/
inductive Err : Type
  | missingWeights
  | networkFetchFailure
  | shapeMismatch
deriving DecidableEq

/-- Run a block of straight-line statements: the call at position `i`
gets outcome `oracle i`; the first exception aborts the block. -/
def runBlock (oracle : Nat → Except Err Unit) : Nat → List SimpleStmt → Except Err Unit
  | _, [] => .ok ()
  | i, _ :: rest =>
      match oracle i with
      | .error e => .error e
      | .ok _ => runBlock oracle (i + 1) rest

/-- Run a top-level statement list from position `i`.  A straight-line
statement propagates any exception; a `try`/`except` block catches an
exception from its body and runs its handler instead. -/
def runStmts (oracle : Nat → Except Err Unit) : Nat → List Stmt → Except Err Unit
  | _, [] => .ok ()
  | i, .simple _ :: rest =>
      match oracle i with
      | .error e => .error e
      | .ok _ => runStmts oracle (i + 1) rest
  | i, .tryExcept body handler :: rest =>
      match runBlock oracle i body with
      | .error _ =>
          match runBlock oracle (i + body.length) handler with
          | .error e => .error e
          | .ok _ => runStmts oracle (i + body.length + handler.length) rest
      | .ok _ => runStmts oracle (i + body.length + handler.length) rest

/-- In a list of straight-line statements, the first exception the
oracle assigns is the result of the run, unchanged. -/
theorem runStmts_first_error (l : List Stmt) (hl : ∀ s ∈ l, s.isSimple = true) :
    ∀ (oracle : Nat → Except Err Unit) (k i : Nat) (e : Err),
      i < l.length → (∀ j, j < i → oracle (k + j) = .ok ()) →
      oracle (k + i) = .error e →
      runStmts oracle k l = .error e := by
  induction l with
  | nil => intro _ _ i _ hi _ _; exact absurd hi (by simp)
  | cons s rest ih =>
      intro oracle k i e hi hok he
      cases s with
      | tryExcept b h =>
          have hmem : Stmt.tryExcept b h ∈ Stmt.tryExcept b h :: rest :=
            List.mem_cons_self _ _
          have := hl (Stmt.tryExcept b h) hmem
          simp [Stmt.isSimple] at this
      | simple s0 =>
          cases i with
          | zero =>
              simp only [runStmts]
              rw [show k + 0 = k from rfl] at he
              rw [he]
          | succ i' =>
              have h0 : oracle k = .ok () := by
                have := hok 0 (Nat.succ_pos i')
                simpa using this
              simp only [runStmts, h0]
              have hr : ∀ s ∈ rest, s.isSimple = true := fun s hs =>
                hl s (List.mem_cons_of_mem _ hs)
              have := ih hr oracle (k + 1) i' e
                (by simpa using Nat.lt_of_succ_lt_succ (by simpa using hi))
                (fun j hj => by
                  have := hok (j + 1) (Nat.succ_lt_succ hj)
                  simpa [Nat.add_assoc, Nat.add_comm 1 j] using this)
                (by simpa [Nat.add_assoc, Nat.add_comm 1 i'] using he)
              exact this

/-- Claim C5: the script contains no `try`/`except` (hence no retry or
fallback), and for every oracle of library-call outcomes, the first
exception raised by any call is the result of running the whole script,
propagated unchanged to the top level. -/
theorem claim_C5 :
    (scriptStmts.all Stmt.isSimple) = true ∧
    ∀ (oracle : Nat → Except Err Unit) (i : Nat) (e : Err),
      i < scriptStmts.length → (∀ j, j < i → oracle j = .ok ()) →
      oracle i = .error e →
      runStmts oracle 0 scriptStmts = .error e := by
  refine ⟨by decide, fun oracle i e hi hok he => ?_⟩
  exact runStmts_first_error scriptStmts
    (by decide) oracle 0 i e hi
    (fun j hj => by simpa using hok j hj) (by simpa using he)

/-- An oracle on which the network fetch at statement position 13 (the
`get_file` download of the sample image) fails and every earlier call
succeeds. -/
def fetchFailOracle : Nat → Except Err Unit := fun j =>
  if j = 13 then .error .networkFetchFailure else .ok ()

/-- Witness for C5: under `fetchFailOracle` the script run reports
exactly that network fetch failure. -/
theorem claim_C5_witness :
    runStmts fetchFailOracle 0 scriptStmts = .error Err.networkFetchFailure :=
  claim_C5.2 fetchFailOracle 13 Err.networkFetchFailure (by decide)
    (fun j hj => by
      simp only [fetchFailOracle]
      rw [if_neg (by omega)])
    rfl

/-! ### Claim C8: the unassigned `map` leaves `train_dataset` unchanged

The fine-tuning data pipeline is embedded as symbolic `tf.data` dataset
terms and a statement list over the `train_dataset` variable.  A
`tf.data.Dataset` transformation returns a new dataset and never
mutates its receiver, so a transformation whose result is not assigned
leaves the variable bound to its previous value; `execPipe` encodes
exactly this. -/

/-- The script-defined functions passed to `Dataset.map`. -/
inductive UFn : Type
  | packageDictFn
  | augmenterFn
  | unpackageDataFn
deriving DecidableEq

/-- Symbolic `tf.data` dataset values built by the script. -/
inductive DsExpr : Type
  | trainSplit : DsExpr
  | shuffled : Nat → DsExpr → DsExpr
  | mapped : UFn → DsExpr → DsExpr
  | batched : Nat → DsExpr → DsExpr
  | prefetched : DsExpr → DsExpr
deriving DecidableEq

/-- The element type a dataset yields: the supervised (image, label)
pairs of `tfds.load(..., as_supervised=True)`, the
`{"images": ..., "labels": ...}` dicts produced by `package_dict`, or
the `(images, labels)` tuples produced by `unpackage_data`. -/
inductive ElemTy : Type
  | supervisedPair
  | dictImagesLabels
  | tupleImagesLabels
deriving DecidableEq

/-- Element type of the output of a mapped function, given the element
type of its input: `package_dict` yields dicts, `unpackage_data` yields
tuples, and the augmenter maps a batch dict to a batch dict. -/
def ufnOut : UFn → ElemTy → ElemTy
  | .packageDictFn, _ => .dictImagesLabels
  | .augmenterFn, t => t
  | .unpackageDataFn, _ => .tupleImagesLabels

/-- Element type a symbolic dataset yields. -/
def elemTy : DsExpr → ElemTy
  | .trainSplit => .supervisedPair
  | .shuffled _ d => elemTy d
  | .mapped f d => ufnOut f (elemTy d)
  | .batched _ d => elemTy d
  | .prefetched d => elemTy d

/-- One `tf.data` transformation applied to the current dataset. -/
inductive PipeOp : Type
  | pShuffle : Nat → PipeOp
  | pMap : UFn → PipeOp
  | pBatch : Nat → PipeOp
  | pPrefetch : PipeOp
deriving DecidableEq

/-- Apply one transformation, producing a new dataset term. -/
def applyOp (d : DsExpr) : PipeOp → DsExpr
  | .pShuffle n => .shuffled n d
  | .pMap f => .mapped f d
  | .pBatch n => .batched n d
  | .pPrefetch => .prefetched d

/-- Apply a chain of transformations left to right. -/
def applyOps (d : DsExpr) (ops : List PipeOp) : DsExpr :=
  ops.foldl applyOp d

/-- One pipeline statement of the script: a transformation chain on
`train_dataset` whose result is either assigned back to the variable or
discarded (a bare expression statement). -/
inductive PipeStmt : Type
  | assignTD : List PipeOp → PipeStmt
  | exprTD : List PipeOp → PipeStmt
deriving DecidableEq

/-- Execute pipeline statements over the `train_dataset` variable.
Dataset transformations return new datasets without mutating their
receiver, so an unassigned transformation leaves the variable
unchanged. -/
def execPipe (d : DsExpr) : List PipeStmt → DsExpr
  | [] => d
  | .assignTD ops :: rest => execPipe (applyOps d ops) rest
  | .exprTD _ :: rest => execPipe d rest

/-- The five `train_dataset` pipeline statements of the script, in
source order: the shuffle-and-map assignment (buffer `10 * BATCH_SIZE =
320`), the batch assignment (`BATCH_SIZE = 32`), the augmenter map
assignment, the unassigned `map(unpackage_data, ...)` expression
statement, and the prefetch assignment. -/
def pipeline : List PipeStmt :=
  [ .assignTD [.pShuffle 320, .pMap .packageDictFn],
    .assignTD [.pBatch 32],
    .assignTD [.pMap .augmenterFn],
    .exprTD [.pMap .unpackageDataFn],
    .assignTD [.pPrefetch] ]

/-- The value of `train_dataset` when `model.fit` is reached. -/
def tdFinal : DsExpr := execPipe .trainSplit pipeline

/-- The argument of `model.fit`: a fresh inline
`train_dataset.map(unpackage_data, ...)`. -/
def fitArg : DsExpr := .mapped .unpackageDataFn tdFinal

/-- Claim C8: the unassigned `train_dataset.map(unpackage_data, ...)`
statement leaves `train_dataset` unchanged — after it the variable holds
the same dataset as before, one still yielding
`{"images", "labels"}` dicts (also after the subsequent prefetch) — and
the `(images, labels)` tuples `model.fit` receives come solely from the
fresh `map` applied inline in the `fit` call. -/
theorem claim_C8 :
    execPipe DsExpr.trainSplit (pipeline.take 4) =
      execPipe DsExpr.trainSplit (pipeline.take 3) ∧
    elemTy (execPipe DsExpr.trainSplit (pipeline.take 4)) =
      ElemTy.dictImagesLabels ∧
    elemTy tdFinal = ElemTy.dictImagesLabels ∧
    fitArg = DsExpr.mapped UFn.unpackageDataFn tdFinal ∧
    elemTy fitArg = ElemTy.tupleImagesLabels := by
  refine ⟨rfl, rfl, rfl, rfl, rfl⟩

/-! ### Claims C6 and C9: the inference demo

`predictions = classifier.predict(image[None, ...])` runs the model on
a batch holding the single image; `top_classes =
predictions[0].argsort(axis=-1)` sorts the class indices by ascending
score; `top_two = [classes[i] for i in top_classes[-2:]]` looks the last
two up in a two-entry dict. -/

/-- Ordering of class indices by their score in the prediction vector
`v` (out-of-range indices read the default 0, matching `getD`). -/
def valLe (v : List Int) (i j : Nat) : Prop := v.getD i 0 ≤ v.getD j 0

instance (v : List Int) : DecidableRel (valLe v) := fun i j =>
  Int.decLe (v.getD i 0) (v.getD j 0)

/-- `numpy.argsort`: the indices `0, ..., v.length - 1` ordered by
ascending score. -/
def argsort (v : List Int) : List Nat :=
  List.insertionSort (valLe v) (List.range v.length)

/-- `top_classes = predictions[0].argsort(axis=-1)`. -/
def top_classes (v : List Int) : List Nat := argsort v

/-- `top_classes[-2:]`: the last two indices of the ascending argsort. -/
def topTwo (v : List Int) : List Nat :=
  (top_classes v).drop ((top_classes v).length - 2)

/-- `image[None, ...]`: a batch holding the single image. -/
def expandDims0 (t : Tensor) : List Tensor := [t]

/-- `classifier.predict`: one forward pass of the scoring function per
batch element. -/
def predictBatch (score : Tensor → List Int) (batch : List Tensor) :
    List (List Int) :=
  batch.map score

theorem argsort_perm (v : List Int) :
    List.Perm (argsort v) (List.range v.length) :=
  List.perm_insertionSort (valLe v) (List.range v.length)

theorem argsort_sorted (v : List Int) : List.Sorted (valLe v) (argsort v) := by
  haveI : IsTotal Nat (valLe v) := ⟨fun a b => Int.le_total _ _⟩
  haveI : IsTrans Nat (valLe v) := ⟨fun a b c hab hbc => Int.le_trans hab hbc⟩
  exact List.sorted_insertionSort (valLe v) (List.range v.length)

theorem argsort_length (v : List Int) : (argsort v).length = v.length := by
  rw [argsort, List.length_insertionSort, List.length_range]

theorem mem_argsort (v : List Int) {i : Nat} :
    i ∈ argsort v ↔ i < v.length := by
  rw [(argsort_perm v).mem_iff, List.mem_range]

/-- The last two indices of the ascending argsort index two of the
scores, and every index outside them scores no higher than each of
them: they are the two highest-scoring classes. -/
theorem topTwo_spec (v : List Int) (h : 2 ≤ v.length) :
    (topTwo v).length = 2 ∧
    (topTwo v).Pairwise (valLe v) ∧
    (∀ t ∈ topTwo v, t < v.length) ∧
    ∀ k, k < v.length → k ∉ topTwo v →
      ∀ t ∈ topTwo v, v.getD k 0 ≤ v.getD t 0 := by
  have hlen : (top_classes v).length = v.length := argsort_length v
  have hsorted : List.Sorted (valLe v) (top_classes v) := argsort_sorted v
  refine ⟨?_, ?_, ?_, ?_⟩
  · rw [topTwo, List.length_drop, hlen]
    omega
  · exact List.Pairwise.sublist (List.drop_sublist _ _) hsorted
  · intro t ht
    exact (mem_argsort v).mp (List.mem_of_mem_drop ht)
  · intro k hk hknot t ht
    have hkmem : k ∈ top_classes v := (mem_argsort v).mpr hk
    have hsplit : List.take ((top_classes v).length - 2) (top_classes v) ++
        topTwo v = top_classes v := List.take_append_drop _ _
    have hpw : List.Pairwise (valLe v)
        (List.take ((top_classes v).length - 2) (top_classes v) ++ topTwo v) := by
      rw [hsplit]; exact hsorted
    have hktake : k ∈ List.take ((top_classes v).length - 2) (top_classes v) := by
      rw [← hsplit] at hkmem
      rcases List.mem_append.mp hkmem with h1 | h1
      · exact h1
      · exact absurd h1 hknot
    exact (List.pairwise_append.mp hpw).2.2 k hktake t ht

/-- Claim C6: the pretrained-inference step runs exactly one forward
pass — the batch built from one image has size 1 and `predict` maps the
scorer over it once — and the reported classes, the last two indices of
the ascending argsort of the prediction vector, are the two
highest-scoring classes. -/
theorem claim_C6 (score : Tensor → List Int) (img : Tensor)
    (h : 2 ≤ (score img).length) :
    predictBatch score (expandDims0 img) = [score img] ∧
    (predictBatch score (expandDims0 img)).length = 1 ∧
    (topTwo (score img)).length = 2 ∧
    (topTwo (score img)).Pairwise (valLe (score img)) ∧
    (∀ t ∈ topTwo (score img), t < (score img).length) ∧
    ∀ k, k < (score img).length → k ∉ topTwo (score img) →
      ∀ t ∈ topTwo (score img),
        (score img).getD k 0 ≤ (score img).getD t 0 := by
  obtain ⟨h1, h2, h3, h4⟩ := topTwo_spec (score img) h
  exact ⟨rfl, rfl, h1, h2, h3, h4⟩

/-- A concrete scoring function for the witness. -/
def demoScore : Tensor → List Int := fun _ => [5, 1, 9, 3]

/-- Witness for C6 at the concrete scorer `demoScore` and image
`Tensor.img 0`. -/
theorem claim_C6_witness :
    2 ≤ (demoScore (Tensor.img 0)).length ∧
    (predictBatch demoScore (expandDims0 (Tensor.img 0)) =
        [demoScore (Tensor.img 0)] ∧
      (predictBatch demoScore (expandDims0 (Tensor.img 0))).length = 1 ∧
      (topTwo (demoScore (Tensor.img 0))).length = 2 ∧
      (topTwo (demoScore (Tensor.img 0))).Pairwise
        (valLe (demoScore (Tensor.img 0))) ∧
      (∀ t ∈ topTwo (demoScore (Tensor.img 0)),
        t < (demoScore (Tensor.img 0)).length) ∧
      ∀ k, k < (demoScore (Tensor.img 0)).length →
        k ∉ topTwo (demoScore (Tensor.img 0)) →
        ∀ t ∈ topTwo (demoScore (Tensor.img 0)),
          (demoScore (Tensor.img 0)).getD k 0 ≤
            (demoScore (Tensor.img 0)).getD t 0) :=
  ⟨by decide, claim_C6 demoScore (Tensor.img 0) (by decide)⟩

/-- `classes = {281: ..., 885: ...}`, the two-entry subset of the
ImageNet class names the demo uses. -/
def imagenet_subset : List (Nat × String) :=
  [(281, "tabby, tabby cat"), (885, "velvet")]

/-- `classes = {0: cat, 1: dog}` used after fine-tuning. -/
def cat_dog_classes : List (Nat × String) := [(0, "cat"), (1, "dog")]

/-- The list comprehension `[classes[i] for i in top_classes[-2:]]`:
each lookup may raise `KeyError`, modelled by `Option`; the first
missing key aborts the whole comprehension. -/
def lookupAll (d : List (Nat × String)) : List Nat → Option (List String)
  | [] => some []
  | i :: rest =>
      match d.lookup i with
      | none => none
      | some s =>
          match lookupAll d rest with
          | none => none
          | some ss => some (s :: ss)

/-- The inference-demo lookup of the two top classes. -/
def top_two_lookup (v : List Int) : Option (List String) :=
  lookupAll imagenet_subset (topTwo v)

/-- `numpy.argmax`: index of the first occurrence of the maximal
score. -/
def argmax (v : List Int) : Nat :=
  (List.range v.length).foldl
    (fun best i => if v.getD best 0 < v.getD i 0 then i else best) 0

theorem lookupAll_isSome (d : List (Nat × String)) (l : List Nat) :
    (lookupAll d l).isSome = true ↔ ∀ i ∈ l, (d.lookup i).isSome = true := by
  induction l with
  | nil => simp [lookupAll]
  | cons i rest ih =>
      simp only [lookupAll]
      cases hd : d.lookup i with
      | none =>
          refine iff_of_false (by simp) ?_
          intro hall
          have := hall i (List.mem_cons_self _ _)
          rw [hd] at this
          simp at this
      | some s =>
          cases hr : lookupAll d rest with
          | none =>
              refine iff_of_false (by simp) ?_
              intro hall
              have hforall : ∀ j ∈ rest, (d.lookup j).isSome = true :=
                fun j hj => hall j (List.mem_cons_of_mem _ hj)
              have := ih.mpr hforall
              rw [hr] at this
              simp at this
          | some ss =>
              refine iff_of_true rfl ?_
              intro j hj
              rcases List.mem_cons.mp hj with rfl | hj2
              · rw [hd]; rfl
              · exact ih.mp (by rw [hr]; rfl) j hj2

theorem imagenet_lookup_isSome (i : Nat) :
    (imagenet_subset.lookup i).isSome = true ↔ i = 281 ∨ i = 885 := by
  by_cases h1 : i = 281
  · subst h1; simp [imagenet_subset, List.lookup]
  · by_cases h2 : i = 885
    · subst h2; simp [imagenet_subset, List.lookup]
    · have e1 : (i == 281) = false := beq_eq_false_iff_ne.mpr h1
      have e2 : (i == 885) = false := beq_eq_false_iff_ne.mpr h2
      simp [imagenet_subset, List.lookup, e1, e2]
      exact ⟨h1, h2⟩

theorem argmax_len2 (v : List Int) (h : v.length = 2) :
    argmax v = 0 ∨ argmax v = 1 := by
  obtain ⟨a, b, rfl⟩ := List.length_eq_two.mp h
  have hx : argmax [a, b] = if a < b then 1 else 0 := by
    simp [argmax, List.range_succ, List.getD]
  rw [hx]
  by_cases hab : a < b
  · right; rw [if_pos hab]
  · left; rw [if_neg hab]

/-- Claim C9: the inference-demo lookup is partial — the comprehension
over the two highest-scoring indices succeeds exactly when both are
keys of the two-entry dict `{281, 885}`, and raises `KeyError` (yields
`none`) otherwise — while the final lookup after fine-tuning is total:
argmax of a length-2 prediction vector is always a key of `{0, 1}`. -/
theorem claim_C9 (v : List Int) :
    ((top_two_lookup v).isSome = true ↔
      ∀ i ∈ topTwo v, i = 281 ∨ i = 885) ∧
    (v.length = 2 → (cat_dog_classes.lookup (argmax v)).isSome = true) := by
  constructor
  · rw [top_two_lookup, lookupAll_isSome]
    constructor
    · intro h i hi
      exact (imagenet_lookup_isSome i).mp (h i hi)
    · intro h i hi
      exact (imagenet_lookup_isSome i).mpr (h i hi)
  · intro h
    rcases argmax_len2 v h with h0 | h0 <;> rw [h0] <;> rfl

/-- Witness for C9 at the length-2 prediction vector `[3, 7]`: the
fine-tuned lookup succeeds. -/
theorem claim_C9_witness :
    ([(3 : Int), 7].length = 2) ∧
    (cat_dog_classes.lookup (argmax [(3 : Int), 7])).isSome = true :=
  ⟨rfl, (claim_C9 [(3 : Int), 7]).2 rfl⟩

end KerasCVGuide
